import Mathlib

/-!
Shallow embedding of drivers/gpu/drm/panel/panel-simple.c (sc20 kernel tree).

The driver is modelled as pure functions over an explicit panel state.
External collaborators (regulator, GPIO, backlight, DDC/EDID, DSI host,
allocation) are modelled by environment records carrying the outcome each
collaborator call would return; every hardware-visible call the driver makes
is recorded in an event trace returned alongside the result and new state.
-/

namespace PanelSimple

/-- Linux framebuffer blank level FB_BLANK_UNBLANK (include/linux/fb.h). -/
def FB_BLANK_UNBLANK : Nat := 0

/-- Linux framebuffer blank level FB_BLANK_POWERDOWN (include/linux/fb.h). -/
def FB_BLANK_POWERDOWN : Nat := 4

/-- The driver's own flag bit: `#define GPIO_ACTIVE_LOW (1 << 0)`. -/
def GPIO_ACTIVE_LOW : Nat := 1 <<< 0

/-- errno value ENOMEM = 12. -/
def ENOMEM : Int := 12

/-- errno value ENODEV = 19. -/
def ENODEV : Int := 19

/-- errno value EPROBE_DEFER = 517 (include/linux/errno.h). -/
def EPROBE_DEFER : Int := 517

/-- Kernel GPIO number space bound (ARCH_NR_GPIOS, default 512). -/
def ARCH_NR_GPIOS : Nat := 512

/-- `gpio_is_valid(number)` from include/linux/gpio.h:
`number >= 0 && number < ARCH_NR_GPIOS`. -/
def gpio_is_valid (number : Int) : Bool :=
  decide (0 ≤ number ∧ number < (ARCH_NR_GPIOS : Int))

/-- One video timing, `struct drm_display_mode` (the fields this driver uses). -/
structure drm_display_mode where
  clock : Nat
  hdisplay : Nat
  hsync_start : Nat
  hsync_end : Nat
  htotal : Nat
  vdisplay : Nat
  vsync_start : Nat
  vsync_end : Nat
  vtotal : Nat
  vrefresh : Nat
  deriving Repr, DecidableEq

/-- `struct panel_desc`: mode table plus physical size in millimetres.
`num_modes` is the length of `modes`. -/
structure panel_desc where
  modes : List drm_display_mode
  size_width : Nat
  size_height : Nat
  deriving Repr, DecidableEq

/-- `struct panel_simple`: the per-instance driver state. The resource
handles (supply, backlight, ddc) are modelled by presence booleans; the
enable GPIO keeps its raw kernel number so validity is computed as in C. -/
structure panel_simple where
  enabled : Bool
  desc : Option panel_desc
  backlight : Bool
  ddc : Bool
  enable_gpio_flags : Nat
  enable_gpio : Int
  deriving Repr, DecidableEq

/-- A hardware-visible call made by the driver, in trace order. -/
inductive Event where
  | regulatorEnable
  | regulatorDisable
  | gpioSetValue (gpio : Int) (value : Nat)
  | backlightUpdate (power : Nat)
  | dcsWrite (cmd : Nat) (payload : List Nat) (len : Nat)
  | sleep (ms : Nat)
  | dsiAttach
  deriving Repr, DecidableEq

/-- Outcomes of the collaborator calls `panel_simple_enable` makes.
`backlight_update_result` is never examined by the C code. -/
structure EnableEnv where
  regulator_enable_result : Int
  backlight_update_result : Int
  deriving Repr, DecidableEq

/-- Outcomes of the collaborator calls `panel_simple_disable` makes.
Both results are discarded by the C code. -/
structure DisableEnv where
  regulator_disable_result : Int
  backlight_update_result : Int
  deriving Repr, DecidableEq

/-- `panel_simple_disable` (panel-simple.c:101-124): early-out when not
enabled; otherwise backlight powerdown, GPIO to deasserted electrical level,
regulator off, clear `enabled`, return 0.  The results of
`backlight_update_status` and `regulator_disable` are discarded. -/
def panel_simple_disable (env : DisableEnv) (p : panel_simple) :
    Int × panel_simple × List Event :=
  if p.enabled = false then (0, p, [])
  else
    let blTrace : List Event :=
      if p.backlight then [Event.backlightUpdate FB_BLANK_POWERDOWN] else []
    let gpioTrace : List Event :=
      if gpio_is_valid p.enable_gpio then
        if p.enable_gpio_flags &&& GPIO_ACTIVE_LOW ≠ 0 then
          [Event.gpioSetValue p.enable_gpio 1]
        else
          [Event.gpioSetValue p.enable_gpio 0]
      else []
    (0, { p with enabled := false }, blTrace ++ gpioTrace ++ [Event.regulatorDisable])

/-- `panel_simple_enable` (panel-simple.c:126-155): early-out when already
enabled; regulator on (an error return aborts before any GPIO or backlight
call); GPIO to asserted electrical level; backlight unblank; set `enabled`;
return 0. -/
def panel_simple_enable (env : EnableEnv) (p : panel_simple) :
    Int × panel_simple × List Event :=
  if p.enabled = true then (0, p, [])
  else if env.regulator_enable_result < 0 then
    (env.regulator_enable_result, p, [Event.regulatorEnable])
  else
    let gpioTrace : List Event :=
      if gpio_is_valid p.enable_gpio then
        if p.enable_gpio_flags &&& GPIO_ACTIVE_LOW ≠ 0 then
          [Event.gpioSetValue p.enable_gpio 0]
        else
          [Event.gpioSetValue p.enable_gpio 1]
      else []
    let blTrace : List Event :=
      if p.backlight then [Event.backlightUpdate FB_BLANK_UNBLANK] else []
    (0, { p with enabled := true },
      Event.regulatorEnable :: (gpioTrace ++ blTrace))

/-- EDID blob, abstracted to the list of modes the EDID parser would add. -/
structure edid where
  modes : List drm_display_mode
  deriving Repr, DecidableEq

/-- The connector fields this driver touches: probed mode list, physical
dimensions, and the EDID property. `edid_property = none` means the property
was never written; `some b` means it was last written with blob `b`
(`some none` = written with the NULL blob). -/
structure drm_connector where
  probed_modes : List drm_display_mode
  width_mm : Nat
  height_mm : Nat
  edid_property : Option (Option edid)
  deriving Repr, DecidableEq

/-- Outcomes of the collaborator calls `panel_simple_get_modes` makes:
the EDID read result and, for each descriptor-mode index, whether
`drm_mode_duplicate` succeeds. -/
structure GetModesEnv where
  edid_read : Option edid
  mode_dup_ok : Nat → Bool

/-- The loop body of `panel_simple_get_fixed_modes` (panel-simple.c:79-93):
duplicate descriptor mode `i`; on allocation failure log and `continue`,
otherwise add the copy to the connector's probed list and count it. -/
def fixed_modes_loop (dup_ok : Nat → Bool) (ms : List drm_display_mode)
    (i : Nat) (connector : drm_connector) (num : Nat) : Nat × drm_connector :=
  match ms with
  | [] => (num, connector)
  | m :: rest =>
    if dup_ok i then
      fixed_modes_loop dup_ok rest (i + 1)
        { connector with probed_modes := connector.probed_modes ++ [m] } (num + 1)
    else
      fixed_modes_loop dup_ok rest (i + 1) connector num

/-- `panel_simple_get_fixed_modes` (panel-simple.c:69-99): 0 when there is
no descriptor; otherwise run the duplication loop, then set the connector's
physical dimensions from the descriptor. -/
def panel_simple_get_fixed_modes (env : GetModesEnv) (p : panel_simple)
    (connector : drm_connector) : Nat × drm_connector :=
  match p.desc with
  | none => (0, connector)
  | some d =>
    let r := fixed_modes_loop env.mode_dup_ok d.modes 0 connector 0
    (r.1, { r.2 with width_mm := d.size_width, height_mm := d.size_height })

/-- `panel_simple_get_modes` (panel-simple.c:157-176): when a DDC bus is
present, read the EDID, update the connector's EDID property with the read
result unconditionally, and add the EDID modes only when the read returned a
blob; then add the hard-coded descriptor modes. -/
def panel_simple_get_modes (env : GetModesEnv) (p : panel_simple)
    (connector : drm_connector) : Nat × drm_connector :=
  let r1 : Nat × drm_connector :=
    if p.ddc then
      let c := { connector with edid_property := some env.edid_read }
      match env.edid_read with
      | some e => (e.modes.length, { c with probed_modes := c.probed_modes ++ e.modes })
      | none => (0, c)
    else (0, connector)
  let r2 := panel_simple_get_fixed_modes env p r1.2
  (r1.1 + r2.1, r2.2)


/-- One `mipi_dsi_dcs_write(dsi, cmd, payload, len)` call: the DCS command
byte, the payload array literal as written in the source, and the length
argument actually passed (the source passes 1 on every call). -/
structure DcsCmd where
  cmd : Nat
  payload : List Nat
  len : Nat
  deriving Repr, DecidableEq

/-- Builds the record for one `mipi_dsi_dcs_write(dsi, cmd, payload, 1)`
call, the only form the source uses. -/
def wr (cmd : Nat) (payload : List Nat) : DcsCmd :=
  { cmd := cmd, payload := payload, len := 1 }

/-- The ili9881c bring-up writes issued by `panel_simple_dsi_probe`
(panel-simple.c:520-705), in source order, up to and including the write
that precedes `msleep(1)`. -/
def sc20_init_script_before_sleep : List DcsCmd := [
  wr 0xff [0x98, 0x81, 0x03], wr 0x01 [0x00], wr 0x02 [0x00],
  wr 0x03 [0x73], wr 0x04 [0x03], wr 0x05 [0x00],
  wr 0x06 [0x06], wr 0x07 [0x06], wr 0x08 [0x00],
  wr 0x09 [0x18], wr 0x0a [0x04], wr 0x0b [0x00],
  wr 0x0c [0x02], wr 0x0d [0x03], wr 0x0e [0x00],
  wr 0x0f [0x25], wr 0x10 [0x25], wr 0x11 [0x00],
  wr 0x12 [0x00], wr 0x13 [0x00], wr 0x14 [0x00],
  wr 0x15 [0x00], wr 0x16 [0x0c], wr 0x17 [0x00],
  wr 0x18 [0x00], wr 0x19 [0x00], wr 0x1a [0x00],
  wr 0x1b [0x00], wr 0x1c [0x00], wr 0x1d [0x00],
  wr 0x1e [0xc0], wr 0x1f [0x80], wr 0x20 [0x04],
  wr 0x21 [0x01], wr 0x22 [0x00], wr 0x23 [0x00],
  wr 0x24 [0x00], wr 0x25 [0x00], wr 0x26 [0x00],
  wr 0x27 [0x00], wr 0x28 [0x33], wr 0x29 [0x03],
  wr 0x2a [0x00], wr 0x2b [0x00], wr 0x2c [0x00],
  wr 0x2d [0x00], wr 0x2e [0x00], wr 0x2f [0x00],
  wr 0x30 [0x00], wr 0x31 [0x00], wr 0x32 [0x00],
  wr 0x33 [0x00], wr 0x34 [0x04], wr 0x35 [0x00],
  wr 0x36 [0x00], wr 0x37 [0x00], wr 0x38 [0x3c],
  wr 0x39 [0x00], wr 0x3a [0x00], wr 0x3b [0x00],
  wr 0x3c [0x00], wr 0x3d [0x00], wr 0x3e [0x00],
  wr 0x3f [0x00], wr 0x40 [0x00], wr 0x41 [0x00],
  wr 0x42 [0x00], wr 0x43 [0x00], wr 0x44 [0x00],
  wr 0x50 [0x01], wr 0x51 [0x23], wr 0x52 [0x45],
  wr 0x53 [0x67], wr 0x54 [0x89], wr 0x55 [0xab],
  wr 0x56 [0x01], wr 0x57 [0x23], wr 0x58 [0x45],
  wr 0x59 [0x67], wr 0x5a [0x89], wr 0x5b [0xab],
  wr 0x5c [0xcd], wr 0x5d [0xef], wr 0x5e [0x11],
  wr 0x5f [0x02], wr 0x60 [0x02], wr 0x61 [0x02],
  wr 0x62 [0x02], wr 0x63 [0x02], wr 0x64 [0x02],
  wr 0x65 [0x02], wr 0x66 [0x02], wr 0x67 [0x02],
  wr 0x68 [0x02], wr 0x69 [0x02], wr 0x6a [0x0c],
  wr 0x6b [0x02], wr 0x6c [0x0f], wr 0x6d [0x0e],
  wr 0x6e [0x0d], wr 0x6f [0x06], wr 0x70 [0x07],
  wr 0x71 [0x02], wr 0x72 [0x02], wr 0x73 [0x02],
  wr 0x74 [0x02], wr 0x75 [0x02], wr 0x76 [0x02],
  wr 0x77 [0x02], wr 0x78 [0x02], wr 0x79 [0x02],
  wr 0x7a [0x02], wr 0x7b [0x02], wr 0x7c [0x02],
  wr 0x7d [0x02], wr 0x7e [0x02], wr 0x7f [0x02],
  wr 0x80 [0x0c], wr 0x81 [0x02], wr 0x82 [0x0f],
  wr 0x83 [0x0e], wr 0x84 [0x0d], wr 0x85 [0x06],
  wr 0x86 [0x07], wr 0x87 [0x02], wr 0x88 [0x02],
  wr 0x89 [0x02], wr 0x8a [0x02], wr 0xff [0x98, 0x81, 0x04],
  wr 0x6c [0x15], wr 0x6e [0x22], wr 0x6f [0x33],
  wr 0x3a [0xa4], wr 0x8d [0x0d], wr 0x87 [0xba],
  wr 0x26 [0x76], wr 0xb2 [0xd1], wr 0xff [0x98, 0x81, 0x01],
  wr 0x22 [0x0a], wr 0x53 [0xbe], wr 0x55 [0xa7],
  wr 0x50 [0x74], wr 0x51 [0x74], wr 0x31 [0x02],
  wr 0x60 [0x14], wr 0xa0 [0x15], wr 0xa1 [0x26],
  wr 0xa2 [0x2b], wr 0xa3 [0x14], wr 0xa4 [0x17],
  wr 0xa5 [0x2c], wr 0xa6 [0x20], wr 0xa7 [0x21],
  wr 0xa8 [0x95], wr 0xa9 [0x1d], wr 0xaa [0x27],
  wr 0xab [0x89], wr 0xac [0x1a], wr 0xad [0x18],
  wr 0xae [0x4b], wr 0xaf [0x21], wr 0xb0 [0x26],
  wr 0xb1 [0x60], wr 0xb2 [0x71], wr 0xb3 [0x3f],
  wr 0xc0 [0x05], wr 0xc1 [0x26], wr 0xc2 [0x3f],
  wr 0xc3 [0x0f], wr 0xc4 [0x14], wr 0xc5 [0x27],
  wr 0xc6 [0x1a], wr 0xc7 [0x1e], wr 0xc8 [0x9e],
  wr 0xc9 [0x1a], wr 0xca [0x29], wr 0xcb [0x82],
  wr 0xcc [0x18], wr 0xcd [0x16], wr 0xce [0x4c],
  wr 0xcf [0x1f], wr 0xd0 [0x28], wr 0xd1 [0x53],
  wr 0xd2 [0x62], wr 0xd3 [0x3f], wr 0xff [0x98, 0x81, 0x00]
]

/-- The three writes issued after `msleep(1)` (panel-simple.c:707-709):
exit sleep, display on, tearing-effect on. -/
def sc20_init_script_after_sleep : List DcsCmd := [
  wr 0x11 [0x00], wr 0x29 [0x00], wr 0x35 [0x00]
]

/-- The whole init script, in transmission order. -/
def sc20_init_script : List DcsCmd :=
  sc20_init_script_before_sleep ++ sc20_init_script_after_sleep

/-- The resources `panel_simple_probe` explicitly acquires and releases. -/
inductive Res where
  | gpio
  | backlight
  | ddc
  deriving Repr, DecidableEq

/-- A resource acquisition or release performed by `panel_simple_probe`,
in trace order. -/
inductive REvent where
  | acquire (r : Res)
  | release (r : Res)
  deriving Repr, DecidableEq

/-- Outcomes of the collaborator calls `panel_simple_probe` makes. -/
structure ProbeEnv where
  kzalloc_ok : Bool
  regulator_get_ok : Bool
  regulator_get_err : Int
  gpio_from_of : Int
  of_gpio_active_low : Bool
  gpio_request_result : Int
  gpio_direction_output_result : Int
  backlight_phandle : Bool
  backlight_found : Bool
  ddc_phandle : Bool
  ddc_found : Bool
  drm_panel_add_result : Int
  deriving Repr, DecidableEq

/-- `panel_simple_probe` (panel-simple.c:184-273), linearized: allocation;
regulator lookup (devm-managed, so no explicit release); GPIO request and
output configuration (a failed request returns directly, a failed
configuration frees the requested line); backlight lookup (a configured but
absent provider yields -EPROBE_DEFER via `goto free_gpio`); DDC lookup
(likewise via `goto free_backlight`); `drm_panel_add` (failure unwinds via
`goto free_ddc`).  The cleanup labels fall through, releasing ddc, then
backlight, then gpio. -/
def panel_simple_probe (env : ProbeEnv) : Int × List REvent :=
  if env.kzalloc_ok = false then (-ENOMEM, [])
  else if env.regulator_get_ok = false then (env.regulator_get_err, [])
  else if gpio_is_valid env.gpio_from_of = true ∧ env.gpio_request_result < 0 then
    (env.gpio_request_result, [])
  else if gpio_is_valid env.gpio_from_of = true ∧ env.gpio_direction_output_result < 0 then
    (env.gpio_direction_output_result, [REvent.acquire Res.gpio, REvent.release Res.gpio])
  else
    let gotGpio := gpio_is_valid env.gpio_from_of
    let acqG : List REvent := if gotGpio then [REvent.acquire Res.gpio] else []
    let relG : List REvent := if gotGpio then [REvent.release Res.gpio] else []
    if env.backlight_phandle = true ∧ env.backlight_found = false then
      (-EPROBE_DEFER, acqG ++ relG)
    else
      let gotBl := env.backlight_phandle
      let acqB : List REvent := if gotBl then [REvent.acquire Res.backlight] else []
      let relB : List REvent := if gotBl then [REvent.release Res.backlight] else []
      if env.ddc_phandle = true ∧ env.ddc_found = false then
        (-EPROBE_DEFER, acqG ++ acqB ++ relB ++ relG)
      else
        let gotDdc := env.ddc_phandle
        let acqD : List REvent := if gotDdc then [REvent.acquire Res.ddc] else []
        let relD : List REvent := if gotDdc then [REvent.release Res.ddc] else []
        if env.drm_panel_add_result < 0 then
          (env.drm_panel_add_result, acqG ++ acqB ++ acqD ++ relD ++ relB ++ relG)
        else
          (0, acqG ++ acqB ++ acqD)

/-- Outcomes of the collaborator calls `panel_simple_dsi_probe` makes.
`dcs_write_results i` is what the i-th `mipi_dsi_dcs_write` returns; the C
code assigns each into `ret` and never examines it. -/
structure DsiProbeEnv where
  of_match_found : Bool
  probe_env : ProbeEnv
  dcs_write_results : Nat → Int
  attach_result : Int

/-- The hardware events of transmitting a script, in order. -/
def dsi_write_events (script : List DcsCmd) : List Event :=
  script.map (fun c => Event.dcsWrite c.cmd c.payload c.len)

/-- `panel_simple_dsi_probe` (panel-simple.c:501-715): device-tree match;
`panel_simple_probe`; then the full ili9881c init script is transmitted
unconditionally (every per-write result lands in `ret` and is discarded),
with `msleep(1)` before the final three writes; finally
`mipi_dsi_attach`, whose result is the function's result.  Setting
`mode_flags`, `format` and `lanes` on the DSI device is not hardware I/O
and is not traced. -/
def panel_simple_dsi_probe (env : DsiProbeEnv) : Int × List Event :=
  if env.of_match_found = false then (-ENODEV, [])
  else
    let err := (panel_simple_probe env.probe_env).1
    if err < 0 then (err, [])
    else
      (env.attach_result,
        dsi_write_events sc20_init_script_before_sleep
          ++ [Event.sleep 1]
          ++ dsi_write_events sc20_init_script_after_sleep
          ++ [Event.dsiAttach])


/-- The sc20,ili9881c display mode (panel-simple.c:404-415). -/
def sc20_ili9881c_mode : drm_display_mode :=
  { clock := 714778,
    hdisplay := 720,
    hsync_start := 720 + 52,
    hsync_end := 720 + 52 + 36,
    htotal := 720 + 52 + 36 + 100,
    vdisplay := 1280,
    vsync_start := 1280 + 8,
    vsync_end := 1280 + 8 + 4,
    vtotal := 1280 + 8 + 4 + 20,
    vrefresh := 60 }

/-- The `desc` part of `sc20_ili9881c` (panel-simple.c:417-429). -/
def sc20_ili9881c_desc : panel_desc :=
  { modes := [sc20_ili9881c_mode], size_width := 59, size_height := 104 }

/-- A concrete attached sc20 panel instance: descriptor set, backlight
present, no DDC bus, active-high enable GPIO number 5, initially disabled
(as `panel_simple_probe` leaves it). -/
def sc20Panel : panel_simple :=
  { enabled := false, desc := some sc20_ili9881c_desc, backlight := true,
    ddc := false, enable_gpio_flags := 0, enable_gpio := 5 }

/-- The same instance with an active-low enable GPIO. -/
def sc20PanelActiveLow : panel_simple :=
  { sc20Panel with enable_gpio_flags := GPIO_ACTIVE_LOW }

/-- Collaborator outcomes for a fully successful enable. -/
def enableEnvOk : EnableEnv :=
  { regulator_enable_result := 0, backlight_update_result := 0 }

/-- Collaborator outcomes for a disable (all results are discarded anyway). -/
def disableEnvOk : DisableEnv :=
  { regulator_disable_result := 0, backlight_update_result := 0 }

/-- Collaborator outcomes for a fully successful probe of a device node
with a valid enable GPIO and a backlight provider, no DDC bus. -/
def probeEnvOk : ProbeEnv :=
  { kzalloc_ok := true, regulator_get_ok := true, regulator_get_err := 0,
    gpio_from_of := 5, of_gpio_active_low := false,
    gpio_request_result := 0, gpio_direction_output_result := 0,
    backlight_phandle := true, backlight_found := true,
    ddc_phandle := false, ddc_found := false,
    drm_panel_add_result := 0 }

/-- Whether an event is a DSI DCS write. -/
def Event.isDcsWrite : Event → Bool
  | Event.dcsWrite _ _ _ => true
  | _ => false

/-- Whether an event is a GPIO level change. -/
def Event.isGpioSet : Event → Bool
  | Event.gpioSetValue _ _ => true
  | _ => false

/-- The electrical level `panel_simple_enable` drives on the enable GPIO. -/
def asserted_level (p : panel_simple) : Nat :=
  if p.enable_gpio_flags &&& GPIO_ACTIVE_LOW ≠ 0 then 0 else 1

/-- The electrical level `panel_simple_disable` drives on the enable GPIO. -/
def deasserted_level (p : panel_simple) : Nat :=
  if p.enable_gpio_flags &&& GPIO_ACTIVE_LOW ≠ 0 then 1 else 0

/-- The ordering the spec asserts of a successful enable call trace: it
contains a regulator enable, then (strictly later) a GPIO level change,
then (strictly later) a DSI DCS write, then (strictly later) a backlight
unblank. -/
def enable_trace_claim (tr : List Event) : Prop :=
  ∃ i j k l : Fin tr.length, i < j ∧ j < k ∧ k < l ∧
    tr.get i = Event.regulatorEnable ∧
    (tr.get j).isGpioSet = true ∧
    (tr.get k).isDcsWrite = true ∧
    tr.get l = Event.backlightUpdate FB_BLANK_UNBLANK

instance enable_trace_claim_decidable (tr : List Event) :
    Decidable (enable_trace_claim tr) := by
  unfold enable_trace_claim
  exact inferInstance

/-- The resources a probe trace acquires, in order. -/
def acquired_list (tr : List REvent) : List Res :=
  tr.filterMap (fun e => match e with
    | REvent.acquire r => some r
    | REvent.release _ => none)

/-- The resources a probe trace releases, in order. -/
def released_list (tr : List REvent) : List Res :=
  tr.filterMap (fun e => match e with
    | REvent.release r => some r
    | REvent.acquire _ => none)

/-- How many of the mode indices `i, i+1, ..., i+n-1` duplicate
successfully. -/
def dup_count (dup_ok : Nat → Bool) (i n : Nat) : Nat :=
  match n with
  | 0 => 0
  | Nat.succ m => (if dup_ok i then 1 else 0) + dup_count dup_ok (i + 1) m

/-- The number of modes the EDID parser yields from a read result. -/
def edid_mode_count (o : Option edid) : Nat :=
  match o with
  | some e => e.modes.length
  | none => 0

/-- The DCS writes contained in a hardware trace, in order. -/
def dcs_writes_of (tr : List Event) : List Event :=
  tr.filter Event.isDcsWrite


/-- Collaborator outcomes in which the regulator refuses to enable
(EINVAL). -/
def enableEnvFail : EnableEnv :=
  { regulator_enable_result := -22, backlight_update_result := 0 }

/-- Collaborator outcomes for a fully successful DSI probe of the sc20
panel node. -/
def dsiProbeEnvOk : DsiProbeEnv :=
  { of_match_found := true, probe_env := probeEnvOk,
    dcs_write_results := fun _ => 0, attach_result := 0 }

/-- The descriptor modes the duplication loop keeps, starting at index `i`. -/
def selected_modes (dup_ok : Nat → Bool) :
    List drm_display_mode → Nat → List drm_display_mode
  | [], _ => []
  | m :: rest, i =>
    (if dup_ok i then [m] else []) ++ selected_modes dup_ok rest (i + 1)

/-- The successful-probe collaborator outcomes with every DCS write
failing (-22); only the write outcomes differ from `dsiProbeEnvOk`. -/
def dsiProbeEnvFailWrites : DsiProbeEnv :=
  { dsiProbeEnvOk with dcs_write_results := fun _ => -22 }

/-- Probe outcomes for a node whose configured backlight provider is not
yet registered. -/
def probeEnvBlMissing : ProbeEnv :=
  { probeEnvOk with backlight_found := false }

/-- After any `panel_simple_disable` call the `enabled` flag is false. -/
theorem disable_clears_enabled (env : DisableEnv) (p : panel_simple) :
    (panel_simple_disable env p).2.1.enabled = false := by
  unfold panel_simple_disable
  by_cases h : p.enabled = false <;> simp [h]

/-- A `panel_simple_enable` call that returns 0 leaves `enabled` true. -/
theorem enable_zero_sets_enabled (env : EnableEnv) (p : panel_simple) :
    (panel_simple_enable env p).1 = 0 →
    (panel_simple_enable env p).2.1.enabled = true := by
  unfold panel_simple_enable
  by_cases h : p.enabled = true
  · simp [h]
  · by_cases hr : env.regulator_enable_result < 0
    · simp [h, hr]
      intro heq
      exact absurd heq (by omega)
    · simp [h, hr]

/-- Claim C2: for every panel instance and every collaborator outcome,
after disable() returns the `enabled` flag is false, and after enable()
returns 0 the `enabled` flag is true. -/
theorem C2_enabled_flag_tracks_calls (p : panel_simple)
    (eenv : EnableEnv) (denv : DisableEnv) :
    (panel_simple_disable denv p).2.1.enabled = false ∧
    ((panel_simple_enable eenv p).1 = 0 →
      (panel_simple_enable eenv p).2.1.enabled = true) :=
  ⟨disable_clears_enabled denv p, enable_zero_sets_enabled eenv p⟩

/-- Witness for C2 at the concrete sc20 panel. -/
theorem C2_enabled_flag_tracks_calls_witness :
    (panel_simple_disable disableEnvOk sc20Panel).2.1.enabled = false ∧
    ((panel_simple_enable enableEnvOk sc20Panel).1 = 0 →
      (panel_simple_enable enableEnvOk sc20Panel).2.1.enabled = true) :=
  C2_enabled_flag_tracks_calls sc20Panel enableEnvOk disableEnvOk

/-- Enable is a no-op on an already-enabled panel. -/
theorem enable_noop (env : EnableEnv) (q : panel_simple) (h : q.enabled = true) :
    panel_simple_enable env q = (0, q, []) := by
  simp [panel_simple_enable, h]

/-- Disable is a no-op on an already-disabled panel. -/
theorem disable_noop (env : DisableEnv) (q : panel_simple) (h : q.enabled = false) :
    panel_simple_disable env q = (0, q, []) := by
  simp [panel_simple_disable, h]

/-- Claim C3: enable() while already enabled and disable() while already
disabled return 0 with an empty hardware trace and unchanged state, so a
doubled call has the observable effects of a single call. -/
theorem C3_enable_disable_idempotent (p : panel_simple)
    (e1 e2 : EnableEnv) (d1 d2 : DisableEnv) :
    (p.enabled = true → panel_simple_enable e1 p = (0, p, [])) ∧
    (p.enabled = false → panel_simple_disable d1 p = (0, p, [])) ∧
    ((panel_simple_enable e1 p).1 = 0 →
      panel_simple_enable e2 (panel_simple_enable e1 p).2.1 =
        (0, (panel_simple_enable e1 p).2.1, [])) ∧
    panel_simple_disable d2 (panel_simple_disable d1 p).2.1 =
      (0, (panel_simple_disable d1 p).2.1, []) := by
  refine ⟨?_, ?_, ?_, ?_⟩
  · intro h
    exact enable_noop e1 p h
  · intro h
    exact disable_noop d1 p h
  · intro h
    exact enable_noop e2 _ (enable_zero_sets_enabled e1 p h)
  · exact disable_noop d2 _ (disable_clears_enabled d1 p)

/-- Witness for C3 at the concrete sc20 panel. -/
theorem C3_enable_disable_idempotent_witness :
    (sc20Panel.enabled = true →
      panel_simple_enable enableEnvOk sc20Panel = (0, sc20Panel, [])) ∧
    (sc20Panel.enabled = false →
      panel_simple_disable disableEnvOk sc20Panel = (0, sc20Panel, [])) ∧
    ((panel_simple_enable enableEnvOk sc20Panel).1 = 0 →
      panel_simple_enable enableEnvOk (panel_simple_enable enableEnvOk sc20Panel).2.1 =
        (0, (panel_simple_enable enableEnvOk sc20Panel).2.1, [])) ∧
    panel_simple_disable disableEnvOk
        (panel_simple_disable disableEnvOk sc20Panel).2.1 =
      (0, (panel_simple_disable disableEnvOk sc20Panel).2.1, []) :=
  C3_enable_disable_idempotent sc20Panel enableEnvOk enableEnvOk disableEnvOk disableEnvOk

/-- Claim C4: when the power supply fails to turn on during enable(), the
error is returned, the panel state (and in particular `enabled = false`) is
unchanged, and the trace holds only the failed regulator call - no GPIO or
backlight operation. -/
theorem C4_supply_failure_aborts (p : panel_simple) (env : EnableEnv)
    (hen : p.enabled = false) (hr : env.regulator_enable_result < 0) :
    (panel_simple_enable env p).1 = env.regulator_enable_result ∧
    (panel_simple_enable env p).2.1 = p ∧
    (panel_simple_enable env p).2.1.enabled = false ∧
    (panel_simple_enable env p).2.2 = [Event.regulatorEnable] := by
  simp [panel_simple_enable, hen, hr]

/-- Witness for C4: the regulator fails with -22 on the sc20 panel. -/
theorem C4_supply_failure_aborts_witness :
    sc20Panel.enabled = false ∧
    enableEnvFail.regulator_enable_result < 0 ∧
    ((panel_simple_enable enableEnvFail sc20Panel).1 =
        enableEnvFail.regulator_enable_result ∧
      (panel_simple_enable enableEnvFail sc20Panel).2.1 = sc20Panel ∧
      (panel_simple_enable enableEnvFail sc20Panel).2.1.enabled = false ∧
      (panel_simple_enable enableEnvFail sc20Panel).2.2 = [Event.regulatorEnable]) :=
  ⟨by decide, by decide,
    C4_supply_failure_aborts sc20Panel enableEnvFail (by decide) (by decide)⟩

/-- Claim C5: with a valid enable-GPIO, an active-low panel sees electrical
0 on enable and 1 on disable, and an active-high panel sees exactly the
inverted levels. -/
theorem C5_gpio_polarity_inverted (p : panel_simple)
    (eenv : EnableEnv) (denv : DisableEnv)
    (hen : p.enabled = false) (hg : gpio_is_valid p.enable_gpio = true)
    (hr : ¬ eenv.regulator_enable_result < 0) :
    (p.enable_gpio_flags &&& GPIO_ACTIVE_LOW ≠ 0 →
      Event.gpioSetValue p.enable_gpio 0 ∈ (panel_simple_enable eenv p).2.2 ∧
      Event.gpioSetValue p.enable_gpio 1 ∈
        (panel_simple_disable denv { p with enabled := true }).2.2) ∧
    (p.enable_gpio_flags &&& GPIO_ACTIVE_LOW = 0 →
      Event.gpioSetValue p.enable_gpio 1 ∈ (panel_simple_enable eenv p).2.2 ∧
      Event.gpioSetValue p.enable_gpio 0 ∈
        (panel_simple_disable denv { p with enabled := true }).2.2) := by
  constructor <;> intro hf <;>
    simp [panel_simple_enable, panel_simple_disable, hen, hr, hg, hf]

/-- Witness for C5 at the active-low sc20 panel. -/
theorem C5_gpio_polarity_inverted_witness :
    sc20PanelActiveLow.enabled = false ∧
    gpio_is_valid sc20PanelActiveLow.enable_gpio = true ∧
    ¬ enableEnvOk.regulator_enable_result < 0 ∧
    ((sc20PanelActiveLow.enable_gpio_flags &&& GPIO_ACTIVE_LOW ≠ 0 →
      Event.gpioSetValue sc20PanelActiveLow.enable_gpio 0 ∈
        (panel_simple_enable enableEnvOk sc20PanelActiveLow).2.2 ∧
      Event.gpioSetValue sc20PanelActiveLow.enable_gpio 1 ∈
        (panel_simple_disable disableEnvOk
          { sc20PanelActiveLow with enabled := true }).2.2) ∧
    (sc20PanelActiveLow.enable_gpio_flags &&& GPIO_ACTIVE_LOW = 0 →
      Event.gpioSetValue sc20PanelActiveLow.enable_gpio 1 ∈
        (panel_simple_enable enableEnvOk sc20PanelActiveLow).2.2 ∧
      Event.gpioSetValue sc20PanelActiveLow.enable_gpio 0 ∈
        (panel_simple_disable disableEnvOk
          { sc20PanelActiveLow with enabled := true }).2.2)) :=
  ⟨by decide, by decide, by decide,
    C5_gpio_polarity_inverted sc20PanelActiveLow enableEnvOk disableEnvOk
      (by decide) (by decide) (by decide)⟩

/-- Claim C9: disable() returns 0 for every panel state and every outcome
of the underlying backlight, GPIO, and regulator calls. -/
theorem C9_disable_always_zero (p : panel_simple) (env : DisableEnv) :
    (panel_simple_disable env p).1 = 0 := by
  unfold panel_simple_disable
  by_cases h : p.enabled = false <;> simp [h]


/-- Counterexample to claim C1: on the concrete sc20 panel, enable()
succeeds, yet its hardware trace contains no DSI DCS write at all - the
claimed ordering regulator-enable before GPIO-assert before DCS write
before backlight-unblank is not realized inside enable(), because this
driver transmits the init script at probe time, not in enable(). -/
theorem C1_counterexample :
    (panel_simple_enable enableEnvOk sc20Panel).1 = 0 ∧
    ¬ enable_trace_claim (panel_simple_enable enableEnvOk sc20Panel).2.2 := by
  decide

/-- Claim C1 (amended): a successful enable() of a panel with a valid
enable-GPIO and a backlight traces exactly regulator-enable, then the GPIO
driven to its asserted level, then backlight unblank - with no DSI write;
disable() from the enabled state traces exactly the reverse order
(backlight powerdown, GPIO deasserted, regulator off); and the DSI init
script is transmitted during panel_simple_dsi_probe, all of its writes
strictly before the DSI attach handshake, which is the final event. -/
theorem C1_amended_ordering (p : panel_simple)
    (eenv : EnableEnv) (denv : DisableEnv) (dsienv : DsiProbeEnv)
    (hen : p.enabled = false) (hg : gpio_is_valid p.enable_gpio = true)
    (hb : p.backlight = true) (hr : ¬ eenv.regulator_enable_result < 0)
    (hm : dsienv.of_match_found = true)
    (hp : ¬ (panel_simple_probe dsienv.probe_env).1 < 0) :
    (panel_simple_enable eenv p).2.2 =
      [Event.regulatorEnable,
       Event.gpioSetValue p.enable_gpio (asserted_level p),
       Event.backlightUpdate FB_BLANK_UNBLANK] ∧
    (panel_simple_disable denv { p with enabled := true }).2.2 =
      [Event.backlightUpdate FB_BLANK_POWERDOWN,
       Event.gpioSetValue p.enable_gpio (deasserted_level p),
       Event.regulatorDisable] ∧
    (panel_simple_dsi_probe dsienv).2 =
      dsi_write_events sc20_init_script_before_sleep ++ [Event.sleep 1]
        ++ dsi_write_events sc20_init_script_after_sleep ++ [Event.dsiAttach] := by
  refine ⟨?_, ?_, ?_⟩
  · by_cases hf : p.enable_gpio_flags &&& GPIO_ACTIVE_LOW ≠ 0 <;>
      simp [panel_simple_enable, asserted_level, hen, hg, hb, hr, hf]
  · by_cases hf : p.enable_gpio_flags &&& GPIO_ACTIVE_LOW ≠ 0 <;>
      simp [panel_simple_disable, deasserted_level, hg, hb, hf]
  · simp [panel_simple_dsi_probe, hm, hp]

/-- Witness for the amended C1 at the concrete sc20 panel and a fully
successful DSI probe. -/
theorem C1_amended_ordering_witness :
    sc20Panel.enabled = false ∧
    gpio_is_valid sc20Panel.enable_gpio = true ∧
    sc20Panel.backlight = true ∧
    ¬ enableEnvOk.regulator_enable_result < 0 ∧
    dsiProbeEnvOk.of_match_found = true ∧
    ¬ (panel_simple_probe dsiProbeEnvOk.probe_env).1 < 0 ∧
    ((panel_simple_enable enableEnvOk sc20Panel).2.2 =
      [Event.regulatorEnable,
       Event.gpioSetValue sc20Panel.enable_gpio (asserted_level sc20Panel),
       Event.backlightUpdate FB_BLANK_UNBLANK] ∧
    (panel_simple_disable disableEnvOk { sc20Panel with enabled := true }).2.2 =
      [Event.backlightUpdate FB_BLANK_POWERDOWN,
       Event.gpioSetValue sc20Panel.enable_gpio (deasserted_level sc20Panel),
       Event.regulatorDisable] ∧
    (panel_simple_dsi_probe dsiProbeEnvOk).2 =
      dsi_write_events sc20_init_script_before_sleep ++ [Event.sleep 1]
        ++ dsi_write_events sc20_init_script_after_sleep ++ [Event.dsiAttach]) :=
  ⟨by decide, by decide, by decide, by decide, by decide, by decide,
    C1_amended_ordering sc20Panel enableEnvOk disableEnvOk dsiProbeEnvOk
      (by decide) (by decide) (by decide) (by decide) (by decide) (by decide)⟩


/-- The duplication loop adds one to the count per successful duplication. -/
theorem fixed_modes_loop_num (f : Nat → Bool) (ms : List drm_display_mode) :
    ∀ (i : Nat) (c : drm_connector) (n : Nat),
      (fixed_modes_loop f ms i c n).1 = n + dup_count f i ms.length := by
  induction ms with
  | nil =>
    intro i c n
    simp [fixed_modes_loop, dup_count]
  | cons m rest ih =>
    intro i c n
    by_cases h : f i <;>
      simp [fixed_modes_loop, h, dup_count, ih] <;> omega

/-- The duplication loop only appends to the connector's probed mode list;
dimensions and the EDID property pass through unchanged. -/
theorem fixed_modes_loop_connector (f : Nat → Bool) (ms : List drm_display_mode) :
    ∀ (i : Nat) (c : drm_connector) (n : Nat),
      (fixed_modes_loop f ms i c n).2.width_mm = c.width_mm ∧
      (fixed_modes_loop f ms i c n).2.height_mm = c.height_mm ∧
      (fixed_modes_loop f ms i c n).2.edid_property = c.edid_property ∧
      (fixed_modes_loop f ms i c n).2.probed_modes =
        c.probed_modes ++ selected_modes f ms i := by
  induction ms with
  | nil =>
    intro i c n
    simp [fixed_modes_loop, selected_modes]
  | cons m rest ih =>
    intro i c n
    by_cases h : f i <;>
      simp [fixed_modes_loop, h, selected_modes, ih]

/-- Claim C6: getModes returns the number of EDID modes plus the number of
descriptor modes that duplicated successfully (per-mode failures are
skipped, never propagated), and the connector dimensions are set from the
descriptor - also when the count is 0. -/
theorem C6_get_modes_count_and_size (env : GetModesEnv) (p : panel_simple)
    (c : drm_connector) (d : panel_desc) (hd : p.desc = some d) :
    (panel_simple_get_modes env p c).1 =
      (if p.ddc then edid_mode_count env.edid_read else 0)
        + dup_count env.mode_dup_ok 0 d.modes.length ∧
    (panel_simple_get_modes env p c).2.width_mm = d.size_width ∧
    (panel_simple_get_modes env p c).2.height_mm = d.size_height := by
  unfold panel_simple_get_modes panel_simple_get_fixed_modes
  rw [hd]
  by_cases hddc : p.ddc = true
  · cases he : env.edid_read with
    | none =>
      simp [hddc, he, edid_mode_count, fixed_modes_loop_num]
    | some e =>
      simp [hddc, he, edid_mode_count, fixed_modes_loop_num]
  · simp [hddc, edid_mode_count, fixed_modes_loop_num]

/-- Witness for C6: one descriptor mode, no DDC bus, duplication succeeds. -/
theorem C6_get_modes_count_and_size_witness :
    sc20Panel.desc = some sc20_ili9881c_desc ∧
    ((panel_simple_get_modes
        { edid_read := none, mode_dup_ok := fun _ => true } sc20Panel
        { probed_modes := [], width_mm := 0, height_mm := 0,
          edid_property := none }).1 =
      (if sc20Panel.ddc then
        edid_mode_count ({ edid_read := none, mode_dup_ok := fun _ => true } :
          GetModesEnv).edid_read
      else 0)
        + dup_count (fun _ => true) 0 sc20_ili9881c_desc.modes.length ∧
    (panel_simple_get_modes
        { edid_read := none, mode_dup_ok := fun _ => true } sc20Panel
        { probed_modes := [], width_mm := 0, height_mm := 0,
          edid_property := none }).2.width_mm = sc20_ili9881c_desc.size_width ∧
    (panel_simple_get_modes
        { edid_read := none, mode_dup_ok := fun _ => true } sc20Panel
        { probed_modes := [], width_mm := 0, height_mm := 0,
          edid_property := none }).2.height_mm = sc20_ili9881c_desc.size_height) :=
  ⟨rfl,
    C6_get_modes_count_and_size
      { edid_read := none, mode_dup_ok := fun _ => true } sc20Panel
      { probed_modes := [], width_mm := 0, height_mm := 0, edid_property := none }
      sc20_ili9881c_desc rfl⟩

/-- Claim C10: with a DDC bus the connector's EDID property is overwritten
with whatever the read returned - also the NULL blob - while EDID modes are
added only on a successful read; without a DDC bus the property is never
touched. -/
theorem C10_edid_property_update (env : GetModesEnv) (p : panel_simple)
    (c : drm_connector) :
    (p.ddc = true →
      (panel_simple_get_modes env p c).2.edid_property = some env.edid_read) ∧
    (p.ddc = true → env.edid_read = none →
      (panel_simple_get_modes env p c).1 =
        (panel_simple_get_fixed_modes env p c).1 ∧
      (panel_simple_get_modes env p c).2.probed_modes =
        (panel_simple_get_fixed_modes env p c).2.probed_modes) ∧
    (p.ddc = false →
      (panel_simple_get_modes env p c).2.edid_property = c.edid_property) := by
  refine ⟨?_, ?_, ?_⟩
  · intro hddc
    unfold panel_simple_get_modes panel_simple_get_fixed_modes
    cases hdp : p.desc with
    | none =>
      cases he : env.edid_read <;> simp [hddc, he]
    | some d =>
      cases he : env.edid_read <;>
        simp [hddc, he, (fixed_modes_loop_connector env.mode_dup_ok d.modes _ _ _).2.2.1]
  · intro hddc he
    unfold panel_simple_get_modes panel_simple_get_fixed_modes
    cases hdp : p.desc with
    | none => simp [hddc, he]
    | some d =>
      constructor
      · simp [hddc, he, fixed_modes_loop_num]
      · simp [hddc, he,
          (fixed_modes_loop_connector env.mode_dup_ok d.modes 0 _ 0).2.2.2]
  · intro hddc
    unfold panel_simple_get_modes panel_simple_get_fixed_modes
    cases hdp : p.desc with
    | none => simp [hddc]
    | some d =>
      simp [hddc, (fixed_modes_loop_connector env.mode_dup_ok d.modes _ _ _).2.2.1]

/-- Witness for C10: DDC present but the EDID read returns NULL. -/
theorem C10_edid_property_update_witness :
    (({ sc20Panel with ddc := true } : panel_simple).ddc = true →
      (panel_simple_get_modes { edid_read := none, mode_dup_ok := fun _ => true }
        { sc20Panel with ddc := true }
        { probed_modes := [], width_mm := 0, height_mm := 0,
          edid_property := none }).2.edid_property = some none) ∧
    (({ sc20Panel with ddc := true } : panel_simple).ddc = true →
      (none : Option edid) = none →
      (panel_simple_get_modes { edid_read := none, mode_dup_ok := fun _ => true }
        { sc20Panel with ddc := true }
        { probed_modes := [], width_mm := 0, height_mm := 0,
          edid_property := none }).1 =
        (panel_simple_get_fixed_modes
          { edid_read := none, mode_dup_ok := fun _ => true }
          { sc20Panel with ddc := true }
          { probed_modes := [], width_mm := 0, height_mm := 0,
            edid_property := none }).1 ∧
      (panel_simple_get_modes { edid_read := none, mode_dup_ok := fun _ => true }
        { sc20Panel with ddc := true }
        { probed_modes := [], width_mm := 0, height_mm := 0,
          edid_property := none }).2.probed_modes =
        (panel_simple_get_fixed_modes
          { edid_read := none, mode_dup_ok := fun _ => true }
          { sc20Panel with ddc := true }
          { probed_modes := [], width_mm := 0, height_mm := 0,
            edid_property := none }).2.probed_modes) ∧
    (({ sc20Panel with ddc := true } : panel_simple).ddc = false →
      (panel_simple_get_modes { edid_read := none, mode_dup_ok := fun _ => true }
        { sc20Panel with ddc := true }
        { probed_modes := [], width_mm := 0, height_mm := 0,
          edid_property := none }).2.edid_property = none) :=
  C10_edid_property_update
    { edid_read := none, mode_dup_ok := fun _ => true }
    { sc20Panel with ddc := true }
    { probed_modes := [], width_mm := 0, height_mm := 0, edid_property := none }


/-- Filtering a pure write-event list for DCS writes keeps everything. -/
theorem dcs_writes_of_write_events (s : List DcsCmd) :
    dcs_writes_of (dsi_write_events s) = dsi_write_events s := by
  induction s with
  | nil => rfl
  | cons c rest ih =>
    simpa [dsi_write_events, dcs_writes_of, List.filter, Event.isDcsWrite] using ih

/-- Claim C8: the per-step DCS write results never influence
panel_simple_dsi_probe - two runs differing only in write outcomes are
identical - and whenever the script is reached it is transmitted in full,
in order, with the overall result being exactly the attach result. -/
theorem C8_script_runs_to_completion (e1 e2 : DsiProbeEnv)
    (hm : e1.of_match_found = e2.of_match_found)
    (hp : e1.probe_env = e2.probe_env)
    (ha : e1.attach_result = e2.attach_result) :
    panel_simple_dsi_probe e1 = panel_simple_dsi_probe e2 ∧
    (e1.of_match_found = true →
      ¬ (panel_simple_probe e1.probe_env).1 < 0 →
      dcs_writes_of (panel_simple_dsi_probe e1).2 =
        dsi_write_events sc20_init_script ∧
      (panel_simple_dsi_probe e1).1 = e1.attach_result) := by
  constructor
  · unfold panel_simple_dsi_probe
    rw [hm, hp, ha]
  · intro h1 h2
    have htr : (panel_simple_dsi_probe e1).2 =
        dsi_write_events sc20_init_script_before_sleep ++ [Event.sleep 1]
          ++ dsi_write_events sc20_init_script_after_sleep ++ [Event.dsiAttach] := by
      simp [panel_simple_dsi_probe, h1, h2]
    have lfa : ∀ a b : List Event,
        dcs_writes_of (a ++ b) = dcs_writes_of a ++ dcs_writes_of b := by
      intro a b
      simp [dcs_writes_of, List.filter_append]
    constructor
    · rw [htr, lfa, lfa, lfa,
        dcs_writes_of_write_events sc20_init_script_before_sleep,
        dcs_writes_of_write_events sc20_init_script_after_sleep]
      have hs : dcs_writes_of [Event.sleep 1] = [] := rfl
      have hat : dcs_writes_of [Event.dsiAttach] = [] := rfl
      rw [hs, hat]
      simp [sc20_init_script, dsi_write_events, List.map_append]
    · simp [panel_simple_dsi_probe, h1, h2]


/-- Witness for C8: all DCS writes failing changes nothing observable. -/
theorem C8_script_runs_to_completion_witness :
    dsiProbeEnvOk.of_match_found = dsiProbeEnvFailWrites.of_match_found ∧
    dsiProbeEnvOk.probe_env = dsiProbeEnvFailWrites.probe_env ∧
    dsiProbeEnvOk.attach_result = dsiProbeEnvFailWrites.attach_result ∧
    (panel_simple_dsi_probe dsiProbeEnvOk =
      panel_simple_dsi_probe dsiProbeEnvFailWrites ∧
    (dsiProbeEnvOk.of_match_found = true →
      ¬ (panel_simple_probe dsiProbeEnvOk.probe_env).1 < 0 →
      dcs_writes_of (panel_simple_dsi_probe dsiProbeEnvOk).2 =
        dsi_write_events sc20_init_script ∧
      (panel_simple_dsi_probe dsiProbeEnvOk).1 = dsiProbeEnvOk.attach_result)) :=
  ⟨rfl, rfl, rfl,
    C8_script_runs_to_completion dsiProbeEnvOk dsiProbeEnvFailWrites rfl rfl rfl⟩

/-- Independent of outcomes, a probe either balances releases against
acquisitions in reverse order, or it succeeds. -/
theorem probe_trace_shape (env : ProbeEnv) :
    released_list (panel_simple_probe env).2 =
      (acquired_list (panel_simple_probe env).2).reverse ∨
    (panel_simple_probe env).1 = 0 := by
  unfold panel_simple_probe
  by_cases hg : gpio_is_valid env.gpio_from_of = true <;>
  by_cases hb : env.backlight_phandle = true <;>
  by_cases hd : env.ddc_phandle = true <;>
  simp [hg, hb, hd, released_list, acquired_list] <;>
  split_ifs <;>
  simp_all [released_list, acquired_list]

/-- Claim C7: whenever panel_simple_probe fails, the resources it releases
are exactly the resources it acquired, in reverse acquisition order; and a
configured backlight or DDC bus whose provider is absent makes the probe
fail with -EPROBE_DEFER. -/
theorem C7_probe_failure_releases_everything (env : ProbeEnv) :
    ((panel_simple_probe env).1 < 0 →
      released_list (panel_simple_probe env).2 =
        (acquired_list (panel_simple_probe env).2).reverse) ∧
    (env.kzalloc_ok = true → env.regulator_get_ok = true →
      (gpio_is_valid env.gpio_from_of = true →
        0 ≤ env.gpio_request_result ∧ 0 ≤ env.gpio_direction_output_result) →
      ((env.backlight_phandle = true ∧ env.backlight_found = false →
        (panel_simple_probe env).1 = -EPROBE_DEFER) ∧
      ((env.backlight_phandle = true → env.backlight_found = true) →
        env.ddc_phandle = true → env.ddc_found = false →
        (panel_simple_probe env).1 = -EPROBE_DEFER))) := by
  constructor
  · intro hlt
    rcases probe_trace_shape env with h | h
    · exact h
    · exfalso
      omega
  · intro hk hreg hgok
    have hng : ¬ (gpio_is_valid env.gpio_from_of = true ∧
        env.gpio_request_result < 0) := by
      rintro ⟨hv, hreq⟩
      exact absurd hreq (by have := (hgok hv).1; omega)
    have hnd : ¬ (gpio_is_valid env.gpio_from_of = true ∧
        env.gpio_direction_output_result < 0) := by
      rintro ⟨hv, hdir⟩
      exact absurd hdir (by have := (hgok hv).2; omega)
    constructor
    · intro hblmiss
      simp [panel_simple_probe, hk, hreg, hng, hnd, hblmiss]
    · intro hblok hddc hnf
      have hnbl : ¬ (env.backlight_phandle = true ∧
          env.backlight_found = false) := by
        rintro ⟨hb1, hb2⟩
        rw [hblok hb1] at hb2
        exact absurd hb2 (by simp)
      simp [panel_simple_probe, hk, hreg, hng, hnd, hnbl, hddc, hnf]


/-- Witness for C7: a missing backlight provider defers the probe and the
trace is balanced. -/
theorem C7_probe_failure_releases_everything_witness :
    (panel_simple_probe probeEnvBlMissing).1 < 0 ∧
    released_list (panel_simple_probe probeEnvBlMissing).2 =
      (acquired_list (panel_simple_probe probeEnvBlMissing).2).reverse ∧
    (panel_simple_probe probeEnvBlMissing).1 = -EPROBE_DEFER :=
  ⟨by decide,
    (C7_probe_failure_releases_everything probeEnvBlMissing).1 (by decide),
    ((C7_probe_failure_releases_everything probeEnvBlMissing).2 rfl rfl
        (by decide)).1 ⟨rfl, rfl⟩⟩

end PanelSimple
